import Mathlib

/-
  Verification development for the SafeSign legal-RAG pipeline
  (src/rag_pipeline.py and src/toxic_detector.py).

  The Python sources are shallowly embedded as pure Lean functions:
  * the external reasoning engine (`llm.generate`) is modelled as a stream of
    responses indexed by call order, `Nat → Except Unit String`, where
    `Except.error` models a raised exception from the engine call;
  * the two retrieval capabilities (`search_relevant_laws`,
    `search_relevant_precedents`) are modelled as function parameters
    `String → Nat → List String` (query and k to the list of snippets);
  * Python's `json.loads` is modelled by a recursive-descent parser over
    `List Char` producing `JVal` values (ints and floats distinguished,
    float values represented exactly as rationals);
  * Python string helpers used by `_evaluate_faithfulness` (`re.sub` on the
    code-fence pattern, `str.strip`, `str.find`, `str.rfind`, slicing with
    negative indices) are modelled one by one;
  * a run of the pipeline returns, besides the result, the number of
    generation calls and of evaluation calls actually performed, and
    `Option` is used where Python would let an exception escape.
-/

namespace SafeSign

/-- Numeric literals as produced by the Python `json` module: literals without
a fraction or exponent become Python `int`, the others become `float`.  Float
values are represented exactly as rationals (the decimal literals appearing in
evaluator responses are exactly representable this way). -/
inductive JNum where
  | jint : Int → JNum
  | jflt : ℚ → JNum

/-- JSON values as returned by Python's `json.loads`.  Object member lists keep
insertion order; duplicate keys are resolved (last occurrence wins) at lookup
time, matching Python's dict construction. -/
inductive JVal where
  | num : JNum → JVal
  | str : String → JVal
  | bool : Bool → JVal
  | null : JVal
  | arr : List JVal → JVal
  | obj : List (String × JVal) → JVal

/-- The opening-brace character, written by code point to keep brace characters
out of string and character literals. -/
def lbrace : Char := Char.ofNat 123

/-- The closing-brace character. -/
def rbrace : Char := Char.ofNat 125

/-- JSON insignificant whitespace (as accepted between tokens by `json.loads`). -/
def jsonWs (c : Char) : Bool := c = ' ' || c = '\t' || c = '\n' || c = '\r'

/-- Drop leading JSON whitespace. -/
def skipWs : List Char → List Char
  | [] => []
  | c :: cs => if jsonWs c then skipWs cs else c :: cs

/-- Longest prefix of decimal digits, with the rest of the input. -/
def digitSpan : List Char → List Char × List Char
  | [] => ([], [])
  | c :: cs =>
    if c.isDigit then
      let s := digitSpan cs
      (c :: s.1, s.2)
    else ([], c :: cs)

/-- Value of a digit string, most significant digit first. -/
def digitsToNat (ds : List Char) : Nat :=
  ds.foldl (fun acc c => acc * 10 + (c.toNat - 48)) 0

/-- Value of one hexadecimal digit, if the character is one. -/
def hexDigitVal (c : Char) : Option Nat :=
  if '0' ≤ c ∧ c ≤ '9' then some (c.toNat - 48)
  else if 'a' ≤ c ∧ c ≤ 'f' then some (c.toNat - 87)
  else if 'A' ≤ c ∧ c ≤ 'F' then some (c.toNat - 55)
  else none

/-- Parse one JSON number (RFC 8259 grammar, as enforced by `json.loads`):
optional minus sign, integer part `0` or nonzero-led digits, optional
fraction, optional exponent.  A literal with a fraction or exponent becomes a
float, otherwise an int. -/
def parseNumber (cs : List Char) : Option (JNum × List Char) :=
  let sign : Bool × List Char :=
    match cs with
    | '-' :: r => (true, r)
    | _ => (false, cs)
  let neg := sign.1
  let cs1 := sign.2
  let ipart : Option (List Char × List Char) :=
    match cs1 with
    | '0' :: r => some (['0'], r)
    | c :: r =>
      if c.isDigit then
        let s := digitSpan r
        some (c :: s.1, s.2)
      else none
    | [] => none
  match ipart with
  | none => none
  | some (ids, r1) =>
    let fpart : Option (List Char × List Char) :=
      match r1 with
      | '.' :: r =>
        let s := digitSpan r
        if s.1 = [] then none else some (s.1, s.2)
      | _ => some ([], r1)
    match fpart with
    | none => none
    | some (fds, r2) =>
      let epart : Option (Option Int × List Char) :=
        match r2 with
        | c :: r =>
          if c = 'e' ∨ c = 'E' then
            let se : Bool × List Char :=
              match r with
              | '+' :: rr => (false, rr)
              | '-' :: rr => (true, rr)
              | _ => (false, r)
            let s := digitSpan se.2
            if s.1 = [] then none
            else some (some (if se.1 then -(digitsToNat s.1 : Int) else (digitsToNat s.1 : Int)), s.2)
          else some (none, c :: r)
        | [] => some (none, [])
      match epart with
      | none => none
      | some (eo, r3) =>
        match fds, eo with
        | [], none =>
          let n : Int := digitsToNat ids
          some (.jint (if neg then -n else n), r3)
        | _, _ =>
          let base : ℚ := (digitsToNat ids : ℚ) + (digitsToNat fds : ℚ) / (10 : ℚ) ^ fds.length
          let e : Int := (eo.getD 0)
          let v : ℚ := base * (10 : ℚ) ^ e
          some (.jflt (if neg then -v else v), r3)

/-- Parse the body of a JSON string after the opening quote, returning the
decoded characters and the input after the closing quote.  Strict mode:
unescaped control characters are rejected, escapes are the RFC 8259 ones.
The fuel argument strictly exceeds the input length at every call site. -/
def parseStringBody : Nat → List Char → Option (List Char × List Char)
  | 0, _ => none
  | fuel + 1, cs =>
    match cs with
    | [] => none
    | c :: r =>
      if c = '"' then some ([], r)
      else if c = '\\' then
        match r with
        | [] => none
        | e :: r2 =>
          let esc : Option (Char × List Char) :=
            if e = '"' then some ('"', r2)
            else if e = '\\' then some ('\\', r2)
            else if e = '/' then some ('/', r2)
            else if e = 'b' then some (Char.ofNat 8, r2)
            else if e = 'f' then some (Char.ofNat 12, r2)
            else if e = 'n' then some ('\n', r2)
            else if e = 'r' then some ('\r', r2)
            else if e = 't' then some ('\t', r2)
            else if e = 'u' then
              match r2 with
              | h1 :: h2 :: h3 :: h4 :: r3 =>
                match hexDigitVal h1, hexDigitVal h2, hexDigitVal h3, hexDigitVal h4 with
                | some a, some b, some c2, some d =>
                  some (Char.ofNat (((a * 16 + b) * 16 + c2) * 16 + d), r3)
                | _, _, _, _ => none
              | _ => none
            else none
          match esc with
          | none => none
          | some (ch, rest) =>
            match parseStringBody fuel rest with
            | none => none
            | some (content, rest2) => some (ch :: content, rest2)
      else if c.toNat < 32 then none
      else
        match parseStringBody fuel r with
        | none => none
        | some (content, rest) => some (c :: content, rest)

mutual

/-- Parse one JSON value (after optional leading whitespace). -/
def parseV : Nat → List Char → Option (JVal × List Char)
  | 0, _ => none
  | fuel + 1, cs =>
    match skipWs cs with
    | [] => none
    | c :: r =>
      if c = lbrace then parseMembers fuel r
      else if c = '[' then parseElems fuel r
      else if c = '"' then
        match parseStringBody (fuel + 1) r with
        | some (content, rest) => some (.str (String.mk content), rest)
        | none => none
      else if c = 't' then
        match r with
        | 'r' :: 'u' :: 'e' :: rest => some (.bool true, rest)
        | _ => none
      else if c = 'f' then
        match r with
        | 'a' :: 'l' :: 's' :: 'e' :: rest => some (.bool false, rest)
        | _ => none
      else if c = 'n' then
        match r with
        | 'u' :: 'l' :: 'l' :: rest => some (.null, rest)
        | _ => none
      else
        match parseNumber (c :: r) with
        | some (v, rest) => some (.num v, rest)
        | none => none

/-- Parse the members of an object after the opening brace. -/
def parseMembers : Nat → List Char → Option (JVal × List Char)
  | 0, _ => none
  | fuel + 1, cs =>
    match skipWs cs with
    | [] => none
    | c :: r =>
      if c = rbrace then some (.obj [], r)
      else parseMember fuel [] (c :: r)

/-- Parse one `"key": value` member, then the remaining members. -/
def parseMember : Nat → List (String × JVal) → List Char → Option (JVal × List Char)
  | 0, _, _ => none
  | fuel + 1, acc, cs =>
    match skipWs cs with
    | '"' :: r =>
      match parseStringBody (fuel + 1) r with
      | none => none
      | some (kcs, r1) =>
        match skipWs r1 with
        | ':' :: r2 =>
          match parseV fuel r2 with
          | none => none
          | some (v, r3) => parseMembersRest fuel (acc ++ [(String.mk kcs, v)]) r3
        | _ => none
    | _ => none

/-- After one member: either a comma and a further member, or the closing brace. -/
def parseMembersRest : Nat → List (String × JVal) → List Char → Option (JVal × List Char)
  | 0, _, _ => none
  | fuel + 1, acc, cs =>
    match skipWs cs with
    | [] => none
    | c :: r =>
      if c = rbrace then some (.obj acc, r)
      else if c = ',' then parseMember fuel acc r
      else none

/-- Parse the elements of an array after the opening bracket. -/
def parseElems : Nat → List Char → Option (JVal × List Char)
  | 0, _ => none
  | fuel + 1, cs =>
    match skipWs cs with
    | [] => none
    | c :: r =>
      if c = ']' then some (.arr [], r)
      else
        match parseV fuel (c :: r) with
        | none => none
        | some (v, r1) => parseElemsRest fuel [v] r1

/-- After one element: either a comma and a further element, or the closing bracket. -/
def parseElemsRest : Nat → List JVal → List Char → Option (JVal × List Char)
  | 0, _, _ => none
  | fuel + 1, acc, cs =>
    match skipWs cs with
    | [] => none
    | c :: r =>
      if c = ']' then some (.arr acc, r)
      else if c = ',' then
        match parseV fuel r with
        | none => none
        | some (v, r1) => parseElemsRest fuel (acc ++ [v]) r1
      else none

end

/-- Model of Python `json.loads` on a character list: parse one value and
require only whitespace to follow.  The fuel bound strictly dominates the
depth of the recursion for any input of this length. -/
def jsonLoadsL (l : List Char) : Option JVal :=
  match parseV (2 * l.length + 8) l with
  | some (v, rest) => if skipWs rest = [] then some v else none
  | none => none

/-! Python string operations used by `RagPipeline._evaluate_faithfulness`. -/

/-- Fueled scan for `re.sub(r'```json|```', '', text)`: walk left to right,
removing each non-overlapping occurrence, trying the first alternative of the
pattern first at every position (as Python's `re` does).  Every step consumes
at least one character, so any fuel above the input length is enough. -/
def stripFencesF : Nat → List Char → List Char
  | 0, l => l
  | fuel + 1, l =>
    match l with
    | [] => []
    | c :: cs =>
      if ("```json".toList).isPrefixOf (c :: cs) then stripFencesF fuel ((c :: cs).drop 7)
      else if ("```".toList).isPrefixOf (c :: cs) then stripFencesF fuel ((c :: cs).drop 3)
      else c :: stripFencesF fuel cs

/-- Model of `re.sub(r'```json|```', '', text)`. -/
def stripFences (l : List Char) : List Char :=
  stripFencesF (l.length + 1) l

/-- The ASCII characters stripped by Python's `str.strip()` (the model omits
the non-ASCII Unicode whitespace, which does not occur in the texts at stake). -/
def pyIsSpace (c : Char) : Bool :=
  c = ' ' || c = '\t' || c = '\n' || c = '\r' || c = Char.ofNat 11 || c = Char.ofNat 12

/-- Model of Python `str.strip()`. -/
def pyStrip (l : List Char) : List Char :=
  ((l.dropWhile pyIsSpace).reverse.dropWhile pyIsSpace).reverse

/-- Model of Python `str.find(c)`: index of the first occurrence, `-1` if none. -/
def pyFind (l : List Char) (c : Char) : Int :=
  match l.findIdx? (fun x => x == c) with
  | some i => (i : Int)
  | none => -1

/-- Model of Python `str.rfind(c)`: index of the last occurrence, `-1` if none. -/
def pyRFind (l : List Char) (c : Char) : Int :=
  match l.reverse.findIdx? (fun x => x == c) with
  | some i => (l.length : Int) - 1 - (i : Int)
  | none => -1

/-- Normalize one bound of a Python slice `s[i:j]` for a string of length
`len`: negative indices count from the end, then both are clamped to
`[0, len]`. -/
def pySliceNorm (len : Nat) (i : Int) : Nat :=
  if i < 0 then (max 0 ((len : Int) + i)).toNat else min len i.toNat

/-- Model of Python slicing `s[start:stop]` (with step 1). -/
def pySlice (l : List Char) (start stop : Int) : List Char :=
  (l.take (pySliceNorm l.length stop)).drop (pySliceNorm l.length start)

/-- The substring handed to `json.loads` by `RagPipeline._evaluate_faithfulness`:
code-fence markers removed, the text stripped, then the slice from the first
opening brace to just past the last closing brace. -/
def extractJsonSlice (text : String) : List Char :=
  let clean := pyStrip (stripFences text.toList)
  let start := pyFind clean lbrace
  let stop := pyRFind clean rbrace + 1
  pySlice clean start stop

/-- The record returned by `_evaluate_faithfulness` when the engine call or the
parse of its response fails. -/
def evalErrorFallback : JVal :=
  .obj [("score", .num (.jint 50)), ("reason", .str "Evaluation Error")]

/-- Embeds `RagPipeline._evaluate_faithfulness`.  The argument is the outcome
of the reasoning-engine call made inside the `try` block (`Except.error` models
a raised exception).  Any exception inside the block — including a `json.loads`
failure on the extracted slice — is caught and answered with the fixed
fallback record; a successful parse is returned as-is. -/
def evaluate_faithfulness (resp : Except Unit String) : JVal :=
  match resp with
  | .error _ => evalErrorFallback
  | .ok text =>
    match jsonLoadsL (extractJsonSlice text) with
    | some v => v
    | none => evalErrorFallback

/-! Python dict operations performed by `RagPipeline.run` on the parsed record. -/

/-- Lookup in an insertion-ordered member list with Python's duplicate-key
resolution (the last binding wins). -/
def pyLookup (kvs : List (String × JVal)) (key : String) : Option JVal :=
  match kvs.reverse.find? (fun p => p.1 == key) with
  | some p => some p.2
  | none => none

/-- Model of Python `d.get(key, default)`.  On a non-dict value the attribute
access raises (`none`), as it would in Python when `json.loads` produced a
non-object. -/
def pyDictGet (v : JVal) (key : String) (dflt : JVal) : Option JVal :=
  match v with
  | .obj kvs => some ((pyLookup kvs key).getD dflt)
  | _ => none

/-- Model of the Python comparison `v >= t` against an int `t`: defined for
numbers and booleans (Python `bool` is an `int`), a `TypeError` (`none`)
otherwise. -/
def pyGeInt (v : JVal) (t : Int) : Option Bool :=
  match v with
  | .num (.jint n) => some (t ≤ n)
  | .num (.jflt q) => some ((t : ℚ) ≤ q)
  | .bool b => some (t ≤ (if b then (1 : Int) else 0))
  | _ => none

/-- Model of the Python comparison `v < t` against an int `t`. -/
def pyLtInt (v : JVal) (t : Int) : Option Bool :=
  match v with
  | .num (.jint n) => some (n < t)
  | .num (.jflt q) => some (q < (t : ℚ))
  | .bool b => some ((if b then (1 : Int) else 0) < t)
  | _ => none

/-- Rendering of a parsed value inside a Python f-string.  Exact for the
values any theorem below depends on (ints and strings); the float, list and
dict renderings are stand-ins — they only ever flow into prompt text, which
the engine model does not inspect. -/
def pyStrOfJVal : JVal → String
  | .num (.jint n) => toString n
  | .num (.jflt q) => toString q
  | .str s => s
  | .bool b => if b then "True" else "False"
  | .null => "None"
  | .arr _ => "[...]"
  | .obj _ => "\x7b...\x7d"

/-! The RAG pipeline (`src/rag_pipeline.py`). -/

namespace RagPipeline

/-- `self.MAX_RETRIES` as set in `RagPipeline.__init__`. -/
def MAX_RETRIES : Nat := 2

/-- `self.TARGET_SCORE` as set in `RagPipeline.__init__`. -/
def TARGET_SCORE : Int := 75

/-- One numbered line of `_format_context`: the Python f-string
`f"{i+1}. {txt}"` applied along `enumerate`. -/
def numberedItems (xs : List String) : List String :=
  xs.enum.map (fun p => toString (p.1 + 1) ++ ". " ++ p.2)

/-- The joined numbered list `"\n".join([f"{i+1}. {txt}" ...])`. -/
def numberedLines (xs : List String) : String :=
  String.intercalate "\n" (numberedItems xs)

/-- Embeds `RagPipeline._format_context`: sequential appends to an initially
empty string, one per non-empty snippet group. -/
def format_context (laws precedents : List String) : String :=
  let formatted := ""
  let formatted :=
    if laws ≠ [] then
      formatted ++ "=== [관련 법령] ===\n" ++ numberedLines laws ++ "\n\n"
    else formatted
  let formatted :=
    if precedents ≠ [] then
      formatted ++ "=== [관련 판례] ===\n" ++ numberedLines precedents
    else formatted
  formatted

/-- The prompt built by `RagPipeline._generate_answer`. -/
def generatePrompt (query context feedback : String) : String :=
  let prompt :=
    "당신은 대한민국 법률 AI입니다. 반드시 [참고 자료]에 기반하여 답변하세요." ++
    "\n\n[참고 자료]\n" ++ context ++ "\n\n[질문]\n" ++ query
  if feedback ≠ "" then prompt ++ "\n\n[수정 지시]\n" ++ feedback else prompt

/-- The feedback string built when an attempt scores below the target. -/
def mkFeedback (scoreV reasonV : JVal) : String :=
  "점수 미달(" ++ pyStrOfJVal scoreV ++ "점). 이유: " ++ pyStrOfJVal reasonV ++
  ". 근거 자료에만 기반하여 다시 작성하세요."

/-- The warning banner prefixed to the answer when the final score is below
the target. -/
def warnBanner (scoreV : JVal) : String :=
  "[주의: 근거 불충분 (신뢰도: " ++ pyStrOfJVal scoreV ++ "%)]\n"

/-- Outcome of the generation/verification `while` loop: the final
`(current_answer, current_score)` pair (`none` when an uncaught exception
escapes the loop), with the number of generation calls and of evaluation
calls performed. -/
structure LoopOut where
  result : Option (String × JVal)
  genCalls : Nat
  evalCalls : Nat

/-- Embeds the `while retry_count <= MAX_RETRIES` loop of `RagPipeline.run`.
`remaining` is `MAX_RETRIES + 1 - retry_count`, which strictly decreases on
every retry; `callIdx` numbers the engine calls made so far, so attempt `i`
consumes stream entries `2*i` (generation) and `2*i + 1` (evaluation).
A generation-call failure propagates uncaught (`none`); an evaluation-call
failure is absorbed by `evaluate_faithfulness`.  A `TypeError` from comparing
a non-numeric parsed score, or an attribute error from `.get` on a non-dict
parse result, also propagates uncaught. -/
def runLoop (engine : Nat → Except Unit String) (query context : String) :
    Nat → Nat → String → String → JVal → LoopOut
  | 0, _, _, curAnswer, curScore => ⟨some (curAnswer, curScore), 0, 0⟩
  | remaining + 1, callIdx, feedback, _, _ =>
    let _prompt := generatePrompt query context feedback
    match engine callIdx with
    | .error _ => ⟨none, 1, 0⟩
    | .ok answerText =>
      let evalV := evaluate_faithfulness (engine (callIdx + 1))
      match pyDictGet evalV "score" (.num (.jint 0)),
            pyDictGet evalV "reason" (.str "평가 불가") with
      | some scoreV, some reasonV =>
        match pyGeInt scoreV TARGET_SCORE with
        | none => ⟨none, 1, 1⟩
        | some true => ⟨some (answerText, scoreV), 1, 1⟩
        | some false =>
          let fb := mkFeedback scoreV reasonV
          let rest := runLoop engine query context remaining (callIdx + 2) fb answerText scoreV
          ⟨rest.result, rest.genCalls + 1, rest.evalCalls + 1⟩
      | _, _ => ⟨none, 1, 1⟩

/-- The result envelope returned by `RagPipeline.run`. -/
structure ResultEnvelope where
  answer : String
  sources : List String
  score : JVal

/-- Outcome of one invocation of `RagPipeline.run`: the envelope (`none` when
an uncaught exception escapes), with the generation- and evaluation-call
counts. -/
structure RunOut where
  result : Option ResultEnvelope
  genCalls : Nat
  evalCalls : Nat

/-- Embeds `RagPipeline.run`.  `searchLaws` and `searchPrecs` model
`search_relevant_laws` / `search_relevant_precedents` (query and `k` to the
snippet list); `engine` is the reasoning-engine response stream. -/
def run (searchLaws searchPrecs : String → Nat → List String)
    (engine : Nat → Except Unit String) (user_query : String) : RunOut :=
  let law_docs := searchLaws user_query 2
  let prec_docs := searchPrecs user_query 2
  if law_docs = [] ∧ prec_docs = [] then
    ⟨some ⟨"관련된 법령이나 판례 정보를 찾을 수 없습니다.", [], .num (.jint 0)⟩, 0, 0⟩
  else
    let context_text := format_context law_docs prec_docs
    let lo := runLoop engine user_query context_text (MAX_RETRIES + 1) 0 "" "" (.num (.jint 0))
    match lo.result with
    | none => ⟨none, lo.genCalls, lo.evalCalls⟩
    | some (ans, score) =>
      let final_sources := law_docs ++ prec_docs
      match pyLtInt score TARGET_SCORE with
      | none => ⟨none, lo.genCalls, lo.evalCalls⟩
      | some true => ⟨some ⟨warnBanner score ++ ans, final_sources, score⟩, lo.genCalls, lo.evalCalls⟩
      | some false => ⟨some ⟨ans, final_sources, score⟩, lo.genCalls, lo.evalCalls⟩

/-- The `score` member the loop extracts for attempt `i` from the engine
response stream: the `.get('score', 0)` of the parsed evaluator response
(`none` when the parse produced a non-object, so `.get` would raise). -/
def attemptScore (engine : Nat → Except Unit String) (i : Nat) : Option JVal :=
  pyDictGet (evaluate_faithfulness (engine (2 * i + 1))) "score" (.num (.jint 0))

end RagPipeline

/-! The toxicity scorer (`src/toxic_detector.py`). -/

namespace ToxicClauseDetector

/-- Embeds `ToxicClauseDetector._retrieve_context`: up to 2 statute snippets
joined by newlines (with an explicit general-knowledge instruction when none
are found), one precedent snippet (with a no-result notice when none is
found), assembled into the two labeled sections. -/
def retrieve_context (searchLaws searchPrecs : String → Nat → List String)
    (clause_text : String) : String :=
  let laws := searchLaws clause_text 2
  let law_text :=
    if laws ≠ [] then String.intercalate "\n" laws
    else "관련 법령 검색 결과 없음 (일반 법률 지식으로 판단 요망)"
  let precedents := searchPrecs clause_text 1
  let precedent_text :=
    match precedents with
    | p :: _ => p
    | [] => "관련 판례 검색 결과 없음"
  "=== [관련 법령] ===\n" ++ law_text ++ "\n\n=== [관련 판례] ===\n" ++ precedent_text

/-- The score normalization inside `ToxicClauseDetector.detect`:
`if risk_score <= 1.0: risk_score *= 10`. -/
def normalize_score (raw : ℚ) : ℚ :=
  if raw ≤ 1 then raw * 10 else raw

/-- Round-half-to-even on a rational, as Python's `round` ties are resolved. -/
def roundHalfEven (q : ℚ) : Int :=
  let f := ⌊q⌋
  let frac := q - (f : ℚ)
  if frac < 1 / 2 then f
  else if 1 / 2 < frac then f + 1
  else if Even f then f else f + 1

/-- Model of Python `round(x, 1)` on the exactly-represented score. -/
def pyRound1 (q : ℚ) : ℚ :=
  (roundHalfEven (q * 10) : ℚ) / 10

/-- The record returned by `ToxicClauseDetector.detect`. -/
structure ToxicityAssessment where
  clause : String
  is_toxic : Bool
  risk_score : ℚ
  reason : String
  context_used : String

/-- Embeds `ToxicClauseDetector.detect`.  The G-Eval call is external: its
returned raw score and reason enter as `metricScore` / `metricReason`. -/
def detect (searchLaws searchPrecs : String → Nat → List String)
    (metricScore : ℚ) (metricReason : String) (clause_text : String) : ToxicityAssessment :=
  let retrieved_context := retrieve_context searchLaws searchPrecs clause_text
  let risk_score := normalize_score metricScore
  let is_toxic := decide (4 ≤ risk_score)
  { clause := clause_text
    is_toxic := is_toxic
    risk_score := pyRound1 risk_score
    reason := metricReason
    context_used := retrieved_context }

/-- The prompt built by `generate_easy_suggestion` for a toxic clause
(the triple-quoted f-string, indentation included). -/
def suggestionPrompt (d : ToxicityAssessment) : String :=
  "\n        당신은 근로자 편인 법률 전문가입니다. 다음 독소조항을 분석하세요.\n        \n" ++
  "        [원문]: " ++ d.clause ++ "\n" ++
  "        [이유]: " ++ d.reason ++ "\n" ++
  "        [근거]: " ++ d.context_used ++ "\n\n" ++
  "        다음 두 가지를 마크다운으로 작성:\n" ++
  "        1. **⚠️ 쉬운 해석**: 초등학생도 이해하게 2문장 요약.\n" ++
  "        2. **💡 수정 제안**: 법에 맞는 공정한 조항 예시.\n        "

/-- Embeds `ToxicClauseDetector.generate_easy_suggestion`.  The second
component records the prompts of the reasoning-engine calls made, so call
counts are part of the returned value. -/
def generate_easy_suggestion (engine : String → String)
    (detection_result : ToxicityAssessment) : String × List String :=
  if detection_result.is_toxic = false then ("✅ **안전한 조항입니다.**", [])
  else
    let prompt := suggestionPrompt detection_result
    (engine prompt, [prompt])

end ToxicClauseDetector

/-! Concrete engine streams used to instantiate the theorems below. -/

/-- Engine stream whose first attempt is evaluated at score 80. -/
def engineHi : Nat → Except Unit String
  | 0 => .ok "답변"
  | 1 => .ok "\x7b\"score\": 80, \"reason\": \"good\"\x7d"
  | _ => .error ()

/-- Engine stream whose every attempt is evaluated at score 42. -/
def engineLo : Nat → Except Unit String :=
  fun n =>
    if n % 2 == 1 then .ok "\x7b\"score\": 42, \"reason\": \"bad\"\x7d"
    else .ok ("답변" ++ toString (n / 2))

/-- Engine stream whose evaluator responses are all the empty JSON object. -/
def engineEmptyObj : Nat → Except Unit String :=
  fun n => if n % 2 == 1 then .ok "\x7b\x7d" else .ok "답"

/-! Helper lemmas shared by the claim theorems. -/

/-- A `.get` that succeeded forces the value to be a dict, so every other
`.get` on it succeeds as well. -/
theorem pyDictGet_always (v : JVal) (k k' : String) (d d' x : JVal)
    (h : pyDictGet v k d = some x) : ∃ y, pyDictGet v k' d' = some y := by
  cases v <;> simp [pyDictGet] at h ⊢

/-- On a dict, `.get` returns the stored value or the default. -/
theorem pyDictGet_obj (kvs : List (String × JVal)) (k : String) (d : JVal) :
    pyDictGet (.obj kvs) k d = some ((pyLookup kvs k).getD d) := rfl

namespace RagPipeline

/-- The loop outcome does not depend on the pending feedback string: feedback
only flows into the prompt, and the engine is modelled by call order. -/
theorem runLoop_feedback_irrel (engine : Nat → Except Unit String) (q ctx : String)
    (remaining callIdx : Nat) (fb fb' ans : String) (sc : JVal) :
    runLoop engine q ctx remaining callIdx fb ans sc =
      runLoop engine q ctx remaining callIdx fb' ans sc := by
  cases remaining <;> rfl

/-- One iteration of the loop when the generation call succeeds and the parsed
evaluator record carries an integer score: accept at or above the target,
otherwise recurse with one more generation and evaluation call counted. -/
theorem runLoop_step (engine : Nat → Except Unit String) (q ctx : String)
    (remaining callIdx : Nat) (fb ans : String) (sc : JVal) (a : String) (sv : Int)
    (hg : engine callIdx = .ok a)
    (hs : pyDictGet (evaluate_faithfulness (engine (callIdx + 1))) "score" (.num (.jint 0)) =
      some (.num (.jint sv))) :
    runLoop engine q ctx (remaining + 1) callIdx fb ans sc =
      if TARGET_SCORE ≤ sv then ⟨some (a, .num (.jint sv)), 1, 1⟩
      else
        ⟨(runLoop engine q ctx remaining (callIdx + 2) "" a (.num (.jint sv))).result,
         (runLoop engine q ctx remaining (callIdx + 2) "" a (.num (.jint sv))).genCalls + 1,
         (runLoop engine q ctx remaining (callIdx + 2) "" a (.num (.jint sv))).evalCalls + 1⟩ := by
  obtain ⟨y, hy⟩ := pyDictGet_always _ "score" "reason" _ (.str "평가 불가") _ hs
  have hge : pyGeInt (.num (.jint sv)) TARGET_SCORE = some (decide (TARGET_SCORE ≤ sv)) := rfl
  by_cases hc : TARGET_SCORE ≤ sv
  · simp [runLoop, hg, hs, hy, hge, hc]
  · simp only [runLoop, hg, hs, hy, hge, hc, decide_False]
    rw [runLoop_feedback_irrel engine q ctx remaining (callIdx + 2) (mkFeedback _ _) ""]
    simp

/-- Unfolding of `run` when retrieval produced context, phrased on the loop
outcome: the warning banner is prefixed exactly when the final score is below
the target. -/
theorem run_of_loop (searchLaws searchPrecs : String → Nat → List String)
    (engine : Nat → Except Unit String) (q : String)
    (hne : ¬(searchLaws q 2 = [] ∧ searchPrecs q 2 = []))
    (ans : String) (sv : Int) (g e : Nat)
    (hl : runLoop engine q (format_context (searchLaws q 2) (searchPrecs q 2))
        (MAX_RETRIES + 1) 0 "" "" (.num (.jint 0)) = ⟨some (ans, .num (.jint sv)), g, e⟩) :
    run searchLaws searchPrecs engine q =
      ⟨some ⟨(if sv < TARGET_SCORE then warnBanner (.num (.jint sv)) ++ ans else ans),
             searchLaws q 2 ++ searchPrecs q 2, .num (.jint sv)⟩, g, e⟩ := by
  have hlt : pyLtInt (.num (.jint sv)) TARGET_SCORE = some (decide (sv < TARGET_SCORE)) := rfl
  by_cases hc : sv < TARGET_SCORE <;> simp [run, hne, hl, hlt, hc]

/-- Three below-target attempts exhaust the loop: it returns the last answer
and score, with three generation calls and three evaluation calls. -/
theorem runLoop_exhaust (engine : Nat → Except Unit String) (q ctx : String)
    (a : Nat → String) (s : Nat → Int)
    (hg : ∀ i, i ≤ 2 → engine (2 * i) = .ok (a i))
    (hs : ∀ i, i ≤ 2 → pyDictGet (evaluate_faithfulness (engine (2 * i + 1))) "score"
        (.num (.jint 0)) = some (.num (.jint (s i))))
    (hlow : ∀ i, i ≤ 2 → s i < TARGET_SCORE) :
    runLoop engine q ctx 3 0 "" "" (.num (.jint 0)) =
      ⟨some (a 2, .num (.jint (s 2))), 3, 3⟩ := by
  have e0 := runLoop_step engine q ctx 2 0 "" "" (.num (.jint 0)) (a 0) (s 0)
      (by simpa using hg 0 (by norm_num)) (by simpa using hs 0 (by norm_num))
  rw [if_neg (by have := hlow 0 (by norm_num); omega)] at e0
  have e1 := runLoop_step engine q ctx 1 2 "" (a 0) (.num (.jint (s 0))) (a 1) (s 1)
      (by simpa using hg 1 (by norm_num)) (by simpa using hs 1 (by norm_num))
  rw [if_neg (by have := hlow 1 (by norm_num); omega)] at e1
  have e2 := runLoop_step engine q ctx 0 4 "" (a 1) (.num (.jint (s 1))) (a 2) (s 2)
      (by simpa using hg 2 (by norm_num)) (by simpa using hs 2 (by norm_num))
  rw [if_neg (by have := hlow 2 (by norm_num); omega)] at e2
  norm_num at e0 e1 e2
  rw [e0, e1, e2]
  simp [runLoop]

/-- Acceptance at attempt `j ≤ 2` after below-target attempts: the loop
returns attempt `j`'s answer and score with `j + 1` generation and `j + 1`
evaluation calls. -/
theorem runLoop_accept (engine : Nat → Except Unit String) (q ctx : String)
    (a : Nat → String) (s : Nat → Int) (j : Nat) (hj : j ≤ 2)
    (hg : ∀ i, i ≤ j → engine (2 * i) = .ok (a i))
    (hs : ∀ i, i ≤ j → pyDictGet (evaluate_faithfulness (engine (2 * i + 1))) "score"
        (.num (.jint 0)) = some (.num (.jint (s i))))
    (hlow : ∀ i, i < j → s i < TARGET_SCORE)
    (hhigh : TARGET_SCORE ≤ s j) :
    runLoop engine q ctx 3 0 "" "" (.num (.jint 0)) =
      ⟨some (a j, .num (.jint (s j))), j + 1, j + 1⟩ := by
  interval_cases j
  · have e0 := runLoop_step engine q ctx 2 0 "" "" (.num (.jint 0)) (a 0) (s 0)
        (by simpa using hg 0 (by norm_num)) (by simpa using hs 0 (by norm_num))
    rw [if_pos hhigh] at e0
    norm_num at e0
    exact e0
  · have e0 := runLoop_step engine q ctx 2 0 "" "" (.num (.jint 0)) (a 0) (s 0)
        (by simpa using hg 0 (by norm_num)) (by simpa using hs 0 (by norm_num))
    rw [if_neg (by have := hlow 0 (by norm_num); omega)] at e0
    have e1 := runLoop_step engine q ctx 1 2 "" (a 0) (.num (.jint (s 0))) (a 1) (s 1)
        (by simpa using hg 1 (by norm_num)) (by simpa using hs 1 (by norm_num))
    rw [if_pos hhigh] at e1
    norm_num at e0 e1
    rw [e0, e1]
  · have e0 := runLoop_step engine q ctx 2 0 "" "" (.num (.jint 0)) (a 0) (s 0)
        (by simpa using hg 0 (by norm_num)) (by simpa using hs 0 (by norm_num))
    rw [if_neg (by have := hlow 0 (by norm_num); omega)] at e0
    have e1 := runLoop_step engine q ctx 1 2 "" (a 0) (.num (.jint (s 0))) (a 1) (s 1)
        (by simpa using hg 1 (by norm_num)) (by simpa using hs 1 (by norm_num))
    rw [if_neg (by have := hlow 1 (by norm_num); omega)] at e1
    have e2 := runLoop_step engine q ctx 0 4 "" (a 1) (.num (.jint (s 1))) (a 2) (s 2)
        (by simpa using hg 2 (by norm_num)) (by simpa using hs 2 (by norm_num))
    rw [if_pos hhigh] at e2
    norm_num at e0 e1 e2
    rw [e0, e1, e2]

/-- The loop makes at most `remaining` generation calls, never more evaluation
calls than generation calls, and exactly as many evaluation calls as
generation calls whenever it returns normally. -/
theorem runLoop_calls (engine : Nat → Except Unit String) (q ctx : String) :
    ∀ remaining callIdx fb ans sc,
      (runLoop engine q ctx remaining callIdx fb ans sc).genCalls ≤ remaining ∧
      (runLoop engine q ctx remaining callIdx fb ans sc).evalCalls ≤
        (runLoop engine q ctx remaining callIdx fb ans sc).genCalls ∧
      ((runLoop engine q ctx remaining callIdx fb ans sc).result ≠ none →
        (runLoop engine q ctx remaining callIdx fb ans sc).evalCalls =
          (runLoop engine q ctx remaining callIdx fb ans sc).genCalls) := by
  intro remaining
  induction remaining with
  | zero => intro callIdx fb ans sc; simp [runLoop]
  | succ n ih =>
    intro callIdx fb ans sc
    rcases hE : engine callIdx with e | t
    · simp [runLoop, hE]
    · rcases hS : pyDictGet (evaluate_faithfulness (engine (callIdx + 1))) "score"
          (.num (.jint 0)) with _ | scoreV
      · simp [runLoop, hE, hS]
      · rcases hR : pyDictGet (evaluate_faithfulness (engine (callIdx + 1))) "reason"
            (.str "평가 불가") with _ | reasonV
        · simp [runLoop, hE, hS, hR]
        · rcases hG : pyGeInt scoreV TARGET_SCORE with _ | b
          · simp [runLoop, hE, hS, hR, hG]
          · rcases b with _ | _
            · obtain ⟨h1, h2, h3⟩ := ih (callIdx + 2) (mkFeedback scoreV reasonV) t scoreV
              simp only [runLoop, hE, hS, hR, hG]
              refine ⟨by omega, by omega, fun hres => ?_⟩
              have := h3 hres
              omega
            · simp [runLoop, hE, hS, hR, hG]

end RagPipeline

/-! Claim theorems. -/

open RagPipeline ToxicClauseDetector

/-- C1: for every invocation of the generation loop (retrieval non-empty), if
attempt `j` is the first whose evaluator score reaches `TARGET_SCORE = 75`,
the loop accepts immediately — exactly `j + 1` generation and evaluation
calls — and the envelope carries attempt `j`'s answer text unmodified; if
every attempt up to the retry budget scores below 75, the envelope's answer is
the last produced answer prefixed with the warning banner containing the final
numeric score. -/
theorem run_accept_or_warn (searchLaws searchPrecs : String → Nat → List String)
    (engine : Nat → Except Unit String) (q : String) (a : Nat → String) (s : Nat → Int)
    (hne : ¬(searchLaws q 2 = [] ∧ searchPrecs q 2 = [])) :
    (∀ j, j ≤ MAX_RETRIES →
      (∀ i, i ≤ j → engine (2 * i) = .ok (a i)) →
      (∀ i, i ≤ j → attemptScore engine i = some (.num (.jint (s i)))) →
      (∀ i, i < j → s i < TARGET_SCORE) → TARGET_SCORE ≤ s j →
      run searchLaws searchPrecs engine q =
        ⟨some ⟨a j, searchLaws q 2 ++ searchPrecs q 2, .num (.jint (s j))⟩, j + 1, j + 1⟩) ∧
    ((∀ i, i ≤ MAX_RETRIES → engine (2 * i) = .ok (a i)) →
     (∀ i, i ≤ MAX_RETRIES → attemptScore engine i = some (.num (.jint (s i)))) →
     (∀ i, i ≤ MAX_RETRIES → s i < TARGET_SCORE) →
     run searchLaws searchPrecs engine q =
       ⟨some ⟨"[주의: 근거 불충분 (신뢰도: " ++ toString (s MAX_RETRIES) ++ "%)]\n" ++ a MAX_RETRIES,
              searchLaws q 2 ++ searchPrecs q 2, .num (.jint (s MAX_RETRIES))⟩,
        MAX_RETRIES + 1, MAX_RETRIES + 1⟩) := by
  constructor
  · intro j hj hg hs hlow hhigh
    have hl := runLoop_accept engine q (format_context (searchLaws q 2) (searchPrecs q 2)) a s
      j hj hg (fun i hi => by simpa [attemptScore] using hs i hi) hlow hhigh
    have hr := run_of_loop searchLaws searchPrecs engine q hne (a j) (s j) (j + 1) (j + 1) hl
    rw [hr, if_neg (not_lt.mpr hhigh)]
  · intro hg hs hlow
    have hl := runLoop_exhaust engine q (format_context (searchLaws q 2) (searchPrecs q 2)) a s
      hg (fun i hi => by simpa [attemptScore] using hs i hi) hlow
    have hr := run_of_loop searchLaws searchPrecs engine q hne (a 2) (s 2) 3 3 hl
    rw [hr, if_pos (hlow 2 (by norm_num [MAX_RETRIES]))]
    rfl

/-- Witness for C1: a first-attempt score of 80 is accepted with the answer
returned unmodified after one generation and one evaluation call; three
attempts scoring 42 exhaust the budget and return the last answer behind the
warning banner carrying 42. -/
theorem run_accept_or_warn_witness :
    run (fun _ _ => ["법령1"]) (fun _ _ => []) engineHi "질문" =
      ⟨some ⟨"답변", ["법령1"], .num (.jint 80)⟩, 1, 1⟩ ∧
    run (fun _ _ => ["법령1"]) (fun _ _ => []) engineLo "질문" =
      ⟨some ⟨"[주의: 근거 불충분 (신뢰도: 42%)]\n답변2", ["법령1"], .num (.jint 42)⟩, 3, 3⟩ := by
  constructor
  · exact (run_accept_or_warn (fun _ _ => ["법령1"]) (fun _ _ => []) engineHi "질문"
      (fun _ => "답변") (fun _ => 80) (by simp)).1 0 (by norm_num [MAX_RETRIES])
      (fun i hi => by interval_cases i; rfl)
      (fun i hi => by interval_cases i; rfl)
      (fun i hi => by omega)
      (by norm_num [TARGET_SCORE])
  · exact (run_accept_or_warn (fun _ _ => ["법령1"]) (fun _ _ => []) engineLo "질문"
      (fun i => "답변" ++ toString i) (fun _ => 42) (by simp)).2
      (fun i hi => by simp only [MAX_RETRIES] at hi; interval_cases i <;> rfl)
      (fun i hi => by simp only [MAX_RETRIES] at hi; interval_cases i <;> rfl)
      (fun i hi => by norm_num [TARGET_SCORE])

/-- C2: when both the statute retrieval and the precedent retrieval return
empty sequences, `run` returns score 0, the explicit no-information answer and
an empty sources list, and performs zero generation calls (and zero evaluation
calls). -/
theorem run_no_context (searchLaws searchPrecs : String → Nat → List String)
    (engine : Nat → Except Unit String) (q : String)
    (hL : searchLaws q 2 = []) (hP : searchPrecs q 2 = []) :
    run searchLaws searchPrecs engine q =
      ⟨some ⟨"관련된 법령이나 판례 정보를 찾을 수 없습니다.", [], .num (.jint 0)⟩, 0, 0⟩ := by
  simp [run, hL, hP]

/-- Witness for C2 on concrete empty retrievals. -/
theorem run_no_context_witness :
    run (fun _ _ => []) (fun _ _ => []) (fun _ => .error ()) "해고 통보" =
      ⟨some ⟨"관련된 법령이나 판례 정보를 찾을 수 없습니다.", [], .num (.jint 0)⟩, 0, 0⟩ :=
  run_no_context (fun _ _ => []) (fun _ _ => []) (fun _ => .error ()) "해고 통보" rfl rfl

/-- C3: every invocation performs at most `MAX_RETRIES + 1 = 3` generation
calls and at most that many evaluation calls, with the two counts equal
whenever the invocation returns normally; the loop always terminates (the
embedding is a total function, so the counts below are defined for every
engine behavior). -/
theorem run_call_bound (searchLaws searchPrecs : String → Nat → List String)
    (engine : Nat → Except Unit String) (q : String) :
    (run searchLaws searchPrecs engine q).genCalls ≤ MAX_RETRIES + 1 ∧
    (run searchLaws searchPrecs engine q).evalCalls ≤ MAX_RETRIES + 1 ∧
    ((run searchLaws searchPrecs engine q).result.isSome = true →
      (run searchLaws searchPrecs engine q).evalCalls =
        (run searchLaws searchPrecs engine q).genCalls) := by
  obtain ⟨h1, h2, h3⟩ := runLoop_calls engine q
    (format_context (searchLaws q 2) (searchPrecs q 2)) (MAX_RETRIES + 1) 0 "" ""
    (.num (.jint 0))
  by_cases hne : searchLaws q 2 = [] ∧ searchPrecs q 2 = []
  · simp [run, hne.1, hne.2]
  · rcases hres : (runLoop engine q (format_context (searchLaws q 2) (searchPrecs q 2))
        (MAX_RETRIES + 1) 0 "" "" (.num (.jint 0))).result with _ | p
    · simp only [run, hne, if_false]
      simp [hres]
      omega
    · rcases p with ⟨ans, sc⟩
      rcases hlt : pyLtInt sc TARGET_SCORE with _ | b
      · simp only [run, hne, if_false]
        simp [hres, hlt]
        refine ⟨h1, by omega⟩
      · have hnn : (runLoop engine q (format_context (searchLaws q 2) (searchPrecs q 2))
            (MAX_RETRIES + 1) 0 "" "" (.num (.jint 0))).result ≠ none := by
          rw [hres]; exact Option.some_ne_none _
        rcases b with _ | _ <;>
          (simp only [run, hne, if_false]
           simp [hres, hlt]
           exact ⟨h1, by have := h3 hnn; omega, by have := h3 hnn; omega⟩)

/-- Witness for C3: a concrete exhausted run makes 3 generation and 3
evaluation calls, and returns normally with equal counts. -/
theorem run_call_bound_witness :
    (run (fun _ _ => ["법"]) (fun _ _ => []) engineEmptyObj "질문").genCalls ≤ MAX_RETRIES + 1 ∧
    (run (fun _ _ => ["법"]) (fun _ _ => []) engineEmptyObj "질문").evalCalls =
      (run (fun _ _ => ["법"]) (fun _ _ => []) engineEmptyObj "질문").genCalls :=
  ⟨(run_call_bound (fun _ _ => ["법"]) (fun _ _ => []) engineEmptyObj "질문").1,
   (run_call_bound (fun _ _ => ["법"]) (fun _ _ => []) engineEmptyObj "질문").2.2 rfl⟩

/-- C4: a reasoning-engine error, and every response whose extracted brace
slice fails to parse as JSON (malformed or absent braces included), yield
exactly the record with score 50 and reason "Evaluation Error"; the
evaluation function is total, so no exception reaches the loop. -/
theorem evaluate_faithfulness_fallback :
    (∀ e : Unit, evaluate_faithfulness (.error e) =
      .obj [("score", .num (.jint 50)), ("reason", .str "Evaluation Error")]) ∧
    (∀ text : String, jsonLoadsL (extractJsonSlice text) = none →
      evaluate_faithfulness (.ok text) =
        .obj [("score", .num (.jint 50)), ("reason", .str "Evaluation Error")]) := by
  refine ⟨fun e => rfl, fun text h => ?_⟩
  simp [evaluate_faithfulness, h, evalErrorFallback]

/-- Witness for C4: the literal response `not-json` fails to parse and maps
to the fallback record. -/
theorem evaluate_faithfulness_fallback_witness :
    evaluate_faithfulness (.ok "not-json") =
      .obj [("score", .num (.jint 50)), ("reason", .str "Evaluation Error")] :=
  evaluate_faithfulness_fallback.2 "not-json" rfl

/-- C10: when each evaluator response parses as a valid JSON object lacking a
'score' key, the loop takes the attempt score to be 0 — not the documented
fallback 50 — so the envelope ends up carrying score 0 behind the
low-confidence warning banner even though retrieval succeeded; a missing
'reason' key likewise yields the fixed default reason. -/
theorem run_missing_score_defaults (searchLaws searchPrecs : String → Nat → List String)
    (engine : Nat → Except Unit String) (q : String) (a : Nat → String)
    (hne : ¬(searchLaws q 2 = [] ∧ searchPrecs q 2 = []))
    (hgen : ∀ i, i ≤ MAX_RETRIES → engine (2 * i) = .ok (a i))
    (hmiss : ∀ i, i ≤ MAX_RETRIES → ∃ kvs,
      evaluate_faithfulness (engine (2 * i + 1)) = .obj kvs ∧ pyLookup kvs "score" = none) :
    run searchLaws searchPrecs engine q =
      ⟨some ⟨"[주의: 근거 불충분 (신뢰도: 0%)]\n" ++ a MAX_RETRIES,
             searchLaws q 2 ++ searchPrecs q 2, .num (.jint 0)⟩,
       MAX_RETRIES + 1, MAX_RETRIES + 1⟩ ∧
    (∀ kvs, pyLookup kvs "reason" = none →
      pyDictGet (.obj kvs) "reason" (.str "평가 불가") = some (.str "평가 불가")) := by
  constructor
  · have hs : ∀ i, i ≤ 2 → pyDictGet (evaluate_faithfulness (engine (2 * i + 1))) "score"
        (.num (.jint 0)) = some (.num (.jint 0)) := by
      intro i hi
      obtain ⟨kvs, hk, hnone⟩ := hmiss i hi
      rw [hk, pyDictGet_obj, hnone]
      rfl
    have hl := runLoop_exhaust engine q (format_context (searchLaws q 2) (searchPrecs q 2)) a
      (fun _ => 0) hgen hs (fun i hi => by norm_num [TARGET_SCORE])
    have hr := run_of_loop searchLaws searchPrecs engine q hne (a 2) 0 3 3 hl
    rw [hr, if_pos (by norm_num [TARGET_SCORE])]
    rfl
  · intro kvs h
    rw [pyDictGet_obj, h]
    rfl

/-- Witness for C10: evaluator responses that are the empty JSON object drive
the loop to exhaustion with score 0 and the warning banner. -/
theorem run_missing_score_defaults_witness :
    run (fun _ _ => ["법"]) (fun _ _ => []) engineEmptyObj "질문" =
      ⟨some ⟨"[주의: 근거 불충분 (신뢰도: 0%)]\n답", ["법"], .num (.jint 0)⟩, 3, 3⟩ :=
  (run_missing_score_defaults (fun _ _ => ["법"]) (fun _ _ => []) engineEmptyObj "질문"
    (fun _ => "답") (by simp)
    (fun i hi => by simp only [MAX_RETRIES] at hi; interval_cases i <;> rfl)
    (fun i hi => by simp only [MAX_RETRIES] at hi; interval_cases i <;> exact ⟨[], rfl, rfl⟩)).1

/-- C5: the toxicity normalization multiplies by 10 exactly when the raw
score is at most 1.0 and leaves larger values unchanged; the threshold
decision in `detect` is taken on the normalized value; re-application leaves
any normalized score above 1 fixed (no double-scaling), and concretely raw 0.6
normalizes to 6.0 while raw 6 stays 6.0. -/
theorem normalize_score_props :
    (∀ raw : ℚ, raw ≤ 1 → normalize_score raw = raw * 10) ∧
    (∀ raw : ℚ, 1 < raw → normalize_score raw = raw) ∧
    normalize_score (6 / 10) = 6 ∧
    normalize_score 6 = 6 ∧
    (∀ raw : ℚ, 1 < normalize_score raw →
      normalize_score (normalize_score raw) = normalize_score raw) ∧
    (∀ (sL sP : String → Nat → List String) (r : ℚ) (rsn c : String),
      (detect sL sP r rsn c).is_toxic = decide (4 ≤ normalize_score r)) := by
  refine ⟨?_, ?_, by norm_num [normalize_score], by norm_num [normalize_score], ?_, ?_⟩
  · intro raw h
    simp [normalize_score, h]
  · intro raw h
    simp [normalize_score, not_le.mpr h]
  · intro raw h
    rw [normalize_score, if_neg (not_le.mpr h)]
  · intro sL sP r rsn c
    rfl

/-- Witness for C5: raw 0.5 is scaled, raw 2 is kept, and the normalized
value 2 is a fixed point of re-application. -/
theorem normalize_score_props_witness :
    normalize_score (1 / 2) = (1 / 2) * 10 ∧
    normalize_score 2 = 2 ∧
    normalize_score (normalize_score 2) = normalize_score 2 :=
  ⟨normalize_score_props.1 (1 / 2) (by norm_num),
   normalize_score_props.2.1 2 (by norm_num),
   normalize_score_props.2.2.2.2.1 2 (by norm_num [normalize_score])⟩

/-- C6: `is_toxic` holds exactly when the normalized score is at least 4.0 —
normalized 4.0 is toxic and 3.9 is not — and the reported risk score is the
normalized score rounded to one decimal place. -/
theorem detect_toxicity_decision (sL sP : String → Nat → List String)
    (r : ℚ) (rsn c : String) :
    ((detect sL sP r rsn c).is_toxic = true ↔ 4 ≤ normalize_score r) ∧
    (detect sL sP r rsn c).risk_score = pyRound1 (normalize_score r) ∧
    (detect sL sP 4 rsn c).is_toxic = true ∧
    (detect sL sP (39 / 10) rsn c).is_toxic = false := by
  refine ⟨?_, rfl, ?_, ?_⟩
  · simp [detect]
  · simp [detect, normalize_score]
  · simp [detect, normalize_score]
    norm_num

/-- C7: the toxicity scorer retrieves statute snippets with `k = 2` and
precedent snippets with `k = 1` (so, under the retrieval contract, at most 2
and at most 1 snippets); the built context always opens with the labeled
statute section, and when the statute retrieval is empty that section carries
the explicit general-legal-knowledge instruction instead of being omitted. -/
theorem retrieve_context_props (sL sP : String → Nat → List String) (c : String)
    (hL : ∀ q k, (sL q k).length ≤ k) (hP : ∀ q k, (sP q k).length ≤ k) :
    (sL c 2).length ≤ 2 ∧ (sP c 1).length ≤ 1 ∧
    (∃ rest, retrieve_context sL sP c = "=== [관련 법령] ===\n" ++ rest) ∧
    (sL c 2 = [] → ∃ rest, retrieve_context sL sP c =
      "=== [관련 법령] ===\n" ++
        ("관련 법령 검색 결과 없음 (일반 법률 지식으로 판단 요망)" ++ rest)) := by
  refine ⟨hL c 2, hP c 1, ?_, ?_⟩
  · unfold retrieve_context
    exact ⟨_, by rw [String.append_assoc, String.append_assoc]⟩
  · intro hempty
    exact ⟨_, by
      simp only [retrieve_context, hempty]
      rw [if_neg (by simp), String.append_assoc, String.append_assoc]⟩

/-- Witness for C7: empty retrievals satisfy the contract; the context block
still opens with the statute label followed by the fallback instruction. -/
theorem retrieve_context_props_witness :
    ((fun (_ : String) (_ : Nat) => ([] : List String)) "조항" 2).length ≤ 2 ∧
    (∃ rest, retrieve_context (fun _ _ => []) (fun _ _ => []) "조항" =
      "=== [관련 법령] ===\n" ++ rest) ∧
    (∃ rest, retrieve_context (fun _ _ => []) (fun _ _ => []) "조항" =
      "=== [관련 법령] ===\n" ++
        ("관련 법령 검색 결과 없음 (일반 법률 지식으로 판단 요망)" ++ rest)) := by
  obtain ⟨h1, _, h3, h4⟩ := retrieve_context_props (fun _ _ => []) (fun _ _ => []) "조항"
    (fun _ k => Nat.zero_le k) (fun _ k => Nat.zero_le k)
  exact ⟨h1, h3, h4 rfl⟩

/-- C8: the context formatter yields the labeled statute section (when
non-empty) followed by the labeled precedent section (when non-empty), a
section with zero snippets being omitted entirely; each section is a 1-based
numbered list rendering the snippets in retrieval order. -/
theorem format_context_props (laws precs : List String) :
    format_context laws precs =
      (if laws = [] then "" else "=== [관련 법령] ===\n" ++ numberedLines laws ++ "\n\n") ++
      (if precs = [] then "" else "=== [관련 판례] ===\n" ++ numberedLines precs) ∧
    (∀ i : Nat, (numberedItems laws)[i]? =
      laws[i]?.map (fun t => toString (i + 1) ++ ". " ++ t)) := by
  constructor
  · by_cases hl : laws = [] <;> by_cases hp : precs = [] <;>
      simp [format_context, hl, hp, String.append_assoc]
    rw [← String.append_assoc "\n\n" "=== [관련 판례] ===\n" (numberedLines precs)]
    rfl
  · intro i
    simp only [numberedItems, List.getElem?_map, List.getElem?_enum]
    cases h : laws[i]? <;> simp [h]

/-- C9: on a non-toxic assessment the suggestion generator returns the fixed
safe-clause message and performs no reasoning-engine call; on a toxic one it
performs exactly one call and returns the engine's text as-is. -/
theorem suggestion_props (engine : String → String) (d : ToxicityAssessment) :
    (d.is_toxic = false →
      generate_easy_suggestion engine d = ("✅ **안전한 조항입니다.**", [])) ∧
    (d.is_toxic = true →
      ∃ p, generate_easy_suggestion engine d = (engine p, [p])) := by
  constructor
  · intro h
    simp [generate_easy_suggestion, h]
  · intro h
    exact ⟨suggestionPrompt d, by simp [generate_easy_suggestion, h]⟩

/-- Witness for C9 on two concrete assessments: no call and the fixed message
for a safe clause, one call with the engine's text returned as-is for a toxic
clause. -/
theorem suggestion_props_witness :
    generate_easy_suggestion (fun _ => "수정 제안") ⟨"조항", false, 0, "이유", "근거"⟩ =
      ("✅ **안전한 조항입니다.**", []) ∧
    ∃ p, generate_easy_suggestion (fun _ => "수정 제안") ⟨"조항", true, 9, "이유", "근거"⟩ =
      ("수정 제안", [p]) :=
  ⟨(suggestion_props (fun _ => "수정 제안") ⟨"조항", false, 0, "이유", "근거"⟩).1 rfl,
   (suggestion_props (fun _ => "수정 제안") ⟨"조항", true, 9, "이유", "근거"⟩).2 rfl⟩

end SafeSign
